import Mathlib

/-!
Shallow embedding of the starter-pack-to-list conversion pipeline of the
browser extension (source files `src/background/list-converter.js` and the
background message handler).  Pure JavaScript string manipulation is embedded
over `String`/`List Char`; each network call is recorded in an explicit trace,
and fallible JavaScript code (thrown errors / rejected promises) is embedded
as `Except String`.
-/

namespace Bsky

/-- JavaScript `String.prototype.startsWith`, embedded over the char lists of
the two strings. -/
def jsStartsWith (s pre : String) : Bool :=
  pre.data.isPrefixOf s.data

/-- Split a character list at every occurrence of the separator character,
keeping empty pieces — the behaviour of JavaScript `split('/')` with a
one-character separator string. -/
def splitOnChar (c : Char) : List Char → List (List Char)
  | [] => [[]]
  | x :: xs =>
    match splitOnChar c xs with
    | [] => [[]]
    | y :: ys => if x = c then [] :: y :: ys else (x :: y) :: ys

/-- `pathname.split('/').filter((segment) => segment !== '')` from the source:
split the pathname on `'/'` and drop the empty segments. -/
def splitSegments (p : String) : List String :=
  ((splitOnChar '/' p.data).map String.mk).filter (fun s => s != "")

/-- JavaScript indexing `segments[i]` used inside a template literal: an
out-of-range index yields `undefined`, which the template literal renders as
the string `"undefined"`. -/
def segGet (l : List String) (i : Nat) : String :=
  (l.get? i).getD "undefined"

/-- A parsed WHATWG URL as used by the source: `new URL(...)` exposing
`hostname` and `pathname`. -/
structure Url where
  hostname : String
  pathname : String
  deriving DecidableEq, Repr

/-- `new URL(string)` for the `https://host/path` shapes the pipeline deals
with: strips the scheme, takes the authority up to the first `'/'`, and the
rest as the pathname (defaulting to `"/"`).  A string without the scheme or
with an empty host makes the constructor throw, embedded as `none`. -/
def parseUrl (s : String) : Option Url :=
  if jsStartsWith s "https://" then
    let rest := s.data.drop 8
    let host := rest.takeWhile (fun c => c != '/')
    let path := rest.dropWhile (fun c => c != '/')
    if host = [] then none
    else some ⟨String.mk host, if path = [] then "/" else String.mk path⟩
  else none

/-- The boolean body of `isStarterPackUrl` (`scripts/background.js` lines
7-15 and `MessageHandler.isStarterPackUrl`): fixed host `bsky.app` and one of
the three recognized path prefixes, tested in source order. -/
def isStarterPackUrlOfUrl (u : Url) : Bool :=
  u.hostname == "bsky.app" &&
    (jsStartsWith u.pathname "/starter-pack/" ||
      jsStartsWith u.pathname "/starter-pack-short/" ||
      jsStartsWith u.pathname "/start/")

/-- `isStarterPackUrl(url)` on a string argument: `new URL(url)` throws a
`TypeError` (embedded as `.error "Invalid URL"`) on an unparseable input,
otherwise the boolean host-and-prefix test runs. -/
def isStarterPackUrl (s : String) : Except String Bool :=
  match parseUrl s with
  | none => .error "Invalid URL"
  | some u => .ok (isStarterPackUrlOfUrl u)

/-- `#getShortCode` (`list-converter.js` lines 63-68): reject a falsy
pathname, reject a pathname with fewer than two non-empty segments with
`'Invalid URL path structure'`, otherwise return the second segment. -/
def getShortCode (u : Url) : Except String String :=
  if u.pathname = "" then .error "Invalid URL object"
  else
    let segments := splitSegments u.pathname
    if segments.length < 2 then .error "Invalid URL path structure"
    else .ok (segGet segments 1)

/-- `#getAtUri` (`list-converter.js` lines 70-77) applied to an already
constructed URL object: join the second and third non-empty path segments
into `at://{handleOrDid}/app.bsky.graph.list/{rkey}`.  Missing segments read
as JavaScript `undefined` and render as `"undefined"` in the template
literal — no error is raised. -/
def getAtUriOfUrl (u : Url) : String :=
  let segments := splitSegments u.pathname
  "at://" ++ segGet segments 1 ++ "/app.bsky.graph.list/" ++ segGet segments 2

/-- `#getAtUri` applied to a URL string (the redirect response's `url`
field): `new URL(starterPackUrl)` throws on an unparseable string. -/
def getAtUri (s : String) : Except String String :=
  match parseUrl s with
  | none => .error "Invalid URL"
  | some u => .ok (getAtUriOfUrl u)

/-- One network call issued by the pipeline, identified by the remote
operation and its argument(s). -/
inductive NetCall where
  | redirect (code : String)
  | packFetch (atUri : String)
  | listFetch (uri : String)
  | listCreate (name description : String)
  | memberCreate (did listUri : String)
  deriving DecidableEq, Repr

def NetCall.isMemberCreate : NetCall → Bool
  | .memberCreate _ _ => true
  | _ => false

def NetCall.isRedirect : NetCall → Bool
  | .redirect _ => true
  | _ => false

/-- A trace entry: which call was issued, and the abort-timeout budget (in
milliseconds) of the cancellation scope it was issued under, if any.
`HttpClient.fetch` installs an `AbortController` aborted after
`this.timeout` (constructed with the default `5000`); the calls that go
through the SDK agent (`this.agent....`) install no such scope. -/
structure Issued where
  call : NetCall
  timeoutMs : Option Nat
  deriving DecidableEq, Repr

/-- Metadata of the source list, `list.name` / `list.description` from the
`getList` response. -/
structure ListMeta where
  name : String
  description : String
  deriving DecidableEq, Repr

/-- One member record of the source list, exposing `item.subject.did`. -/
structure Member where
  subjectDid : String
  deriving DecidableEq, Repr

/-- The `{ list, items }` body of the `getList` response. -/
structure ListData where
  list : ListMeta
  items : List Member
  deriving DecidableEq, Repr

/-- The data of a successful `com.atproto.repo.createRecord` call creating
the new list (the source uses its `uri` field). -/
structure CreatedList where
  uri : String
  deriving DecidableEq, Repr

/-- The mocked remote world: the outcome of each possible remote operation,
plus the random name suffix (`Math.random().toString(36).substring(7)`) and
the outcome of `auth.init()`.  Errors are the `message` strings of the
thrown/rejected errors. -/
structure Env where
  redirectResp : String → Except String String
  packResp : String → Except String String
  listResp : String → Except String ListData
  createListResp : String → String → Except String CreatedList
  memberResp : String → Except String Unit
  suffix : String
  authResp : Except String Unit

/-- `HttpClient.fetch` as used by `#fetchStarterPackRedirect`
(`list-converter.js` lines 57-61): the call is issued inside an
`AbortController` scope with the client's 5000 ms timeout, and any failure
(non-2xx or network) is rethrown as `'Network request failed: ...'`.
The redirect response body's `url` field is the value of interest. -/
def fetchStarterPackRedirect (env : Env) (code : String) :
    Except String String × List Issued :=
  (match env.redirectResp code with
    | .ok u => .ok u
    | .error e => .error ("Network request failed: " ++ e),
   [⟨.redirect code, some 5000⟩])

/-- `#getStarterPackUri` (`list-converter.js` lines 79-89): on a short-link
pathname, extract the short code, issue the single redirect-resolution call
and derive the at-uri from the returned URL string; otherwise derive the
at-uri directly from the page URL.  The second component is the trace of
network calls issued. -/
def getStarterPackUri (env : Env) (u : Url) :
    Except String String × List Issued :=
  if jsStartsWith u.pathname "/starter-pack-short/" then
    match getShortCode u with
    | .error e => (.error e, [])
    | .ok code =>
      match fetchStarterPackRedirect env code with
      | (.error e, tr) => (.error e, tr)
      | (.ok redirectUrl, tr) =>
        match getAtUri redirectUrl with
        | .error e => (.error e, tr)
        | .ok atUri => (.ok atUri, tr)
  else
    (.ok (getAtUriOfUrl u), [])

/-- `#getStarterPack` (`list-converter.js` lines 91-94): one SDK-agent call
(no abort scope), returning `data.starterPack`; the orchestrator then reads
its `.list.uri` field, collapsed here into the environment's response. -/
def getStarterPack (env : Env) (atUri : String) :
    Except String String × List Issued :=
  (env.packResp atUri, [⟨.packFetch atUri, none⟩])

/-- `#getList` (`list-converter.js` lines 96-99): one SDK-agent call (no
abort scope) returning the `{ list, items }` data. -/
def getList (env : Env) (uri : String) :
    Except String ListData × List Issued :=
  (env.listResp uri, [⟨.listFetch uri, none⟩])

/-- `#createBskyList` (`list-converter.js` lines 101-115): one SDK-agent
`createRecord` call (no abort scope) whose record name is the source name
uniquified with `' - '` and the random suffix. -/
def createBskyList (env : Env) (name description : String) :
    Except String CreatedList × List Issued :=
  (env.createListResp (name ++ " - " ++ env.suffix) description,
   [⟨.listCreate (name ++ " - " ++ env.suffix) description, none⟩])

/-- `Promise.all` over the outcomes of the already-issued member-create
calls: resolves only when every promise resolves, otherwise rejects with a
failing member's error. -/
def promiseAll : List (Except String Unit) → Except String Unit
  | [] => .ok ()
  | .error e :: _ => .error e
  | .ok _ :: rest => promiseAll rest

/-- `#addUsersToList` (`list-converter.js` lines 117-143): `users.map`
issues one SDK-agent `createRecord` call per member (no abort scope, all
issued up front), then `await Promise.all(addUserPromises)`.  When any
member promise rejects, the `catch` block's logging line reads the bare
identifier `listUri`, which is not in scope (the parameter is
`params.listUri`), so a `ReferenceError` with message
`'listUri is not defined'` is raised from the catch block itself. -/
def addUsersToList (env : Env) (listUri : String) (users : List Member) :
    Except String Unit × List Issued :=
  (match promiseAll (users.map (fun u => env.memberResp u.subjectDid)) with
    | .ok _ => .ok ()
    | .error _ => .error "listUri is not defined",
   users.map (fun u => ⟨.memberCreate u.subjectDid listUri, none⟩))

/-- `createListFromStarterPack` (`list-converter.js` lines 35-55): the
strictly ordered chain — resolve the at-uri, fetch the starter pack, fetch
the list, create the new list record, add every member — with the whole
body inside one `try`/`catch` that rethrows any failure as
`'Failed to create list: {message}'`. -/
def createListFromStarterPack (env : Env) (u : Url) :
    Except String CreatedList × List Issued :=
  match getStarterPackUri env u with
  | (.error e, t1) => (.error ("Failed to create list: " ++ e), t1)
  | (.ok atUri, t1) =>
    match getStarterPack env atUri with
    | (.error e, t2) => (.error ("Failed to create list: " ++ e), t1 ++ t2)
    | (.ok listUri, t2) =>
      match getList env listUri with
      | (.error e, t3) => (.error ("Failed to create list: " ++ e), t1 ++ t2 ++ t3)
      | (.ok ld, t3) =>
        match createBskyList env ld.list.name ld.list.description with
        | (.error e, t4) =>
          (.error ("Failed to create list: " ++ e), t1 ++ t2 ++ t3 ++ t4)
        | (.ok newList, t4) =>
          match addUsersToList env newList.uri ld.items with
          | (.error e, t5) =>
            (.error ("Failed to create list: " ++ e), t1 ++ t2 ++ t3 ++ t4 ++ t5)
          | (.ok _, t5) => (.ok newList, t1 ++ t2 ++ t3 ++ t4 ++ t5)

/-- The `{ success, data, error }` object built by
`MessageHandler.createResponse` (`background.js`), with `data` carrying the
created list on success. -/
structure Response where
  success : Bool
  data : Option CreatedList
  error : Option String
  deriving DecidableEq, Repr

/-- `MessageHandler.handleCreateList` (`background.js`): the
`isStarterPackUrl` test runs OUTSIDE the `try`/`catch`, so an unparseable
tab URL makes the async handler reject (outer `.error`); a non-matching URL
returns the `'Invalid URL'` failure response; otherwise `auth.init`, agent
construction, `new URL(...)` and the conversion run inside the `try`, with
any failure caught and returned as a failure response. -/
def handleCreateList (env : Env) (urlStr : String) :
    Except String Response × List Issued :=
  match isStarterPackUrl urlStr with
  | .error e => (.error e, [])
  | .ok false => (.ok ⟨false, none, some "Invalid URL"⟩, [])
  | .ok true =>
    match env.authResp with
    | .error e => (.ok ⟨false, none, some e⟩, [])
    | .ok _ =>
      match parseUrl urlStr with
      | none => (.ok ⟨false, none, some "Invalid URL"⟩, [])
      | some u =>
        match createListFromStarterPack env u with
        | (.error e, tr) => (.ok ⟨false, none, some e⟩, tr)
        | (.ok l, tr) => (.ok ⟨true, some l, none⟩, tr)

/-- Number of member-create calls in a trace. -/
def memberCreateCount (t : List Issued) : Nat :=
  t.countP (fun i => i.call.isMemberCreate)

/-- Whether an `Except` outcome is a success. -/
def isOkB {α : Type} : Except String α → Bool
  | .ok _ => true
  | .error _ => false

/-- Whether a trace entry sits under the 5000 ms abort scope exactly when it
is the short-link redirect call (the only call issued through
`HttpClient.fetch`). -/
def timeoutConsistent (t : List Issued) : Bool :=
  t.all (fun i => (i.timeoutMs == some 5000) == i.call.isRedirect)

/-- A mocked remote world on which every operation succeeds: the short code
`xyz789` redirects to the canonical carol/k1 page, the bob/xyz starter pack
points at its own list uri, the list has two members, and record creation
succeeds. -/
def envA : Env :=
  ⟨fun c => if c = "xyz789" then .ok "https://bsky.app/starter-pack/carol/k1"
            else .error "HTTP error! status: 404",
   fun a => if a = "at://bob/app.bsky.graph.list/xyz"
            then .ok "at://bob/app.bsky.graph.list/xyz"
            else .error "pack not found",
   fun _ => .ok ⟨⟨"Friends", "d"⟩, [⟨"did:1"⟩, ⟨"did:2"⟩]⟩,
   fun _ _ => .ok ⟨"at://me/app.bsky.graph.list/new"⟩,
   fun _ => .ok (),
   "r4nd0m",
   .ok ()⟩

/-- Like `envA`, except the member-create call for `did:2` is rejected with
`boom` while the one for `did:1` succeeds. -/
def envB : Env :=
  ⟨fun c => if c = "xyz789" then .ok "https://bsky.app/starter-pack/carol/k1"
            else .error "HTTP error! status: 404",
   fun a => if a = "at://bob/app.bsky.graph.list/xyz"
            then .ok "at://bob/app.bsky.graph.list/xyz"
            else .error "pack not found",
   fun _ => .ok ⟨⟨"Friends", "d"⟩, [⟨"did:1"⟩, ⟨"did:2"⟩]⟩,
   fun _ _ => .ok ⟨"at://me/app.bsky.graph.list/new"⟩,
   fun d => if d = "did:2" then .error "boom" else .ok (),
   "r4nd0m",
   .ok ()⟩

/-- A mocked remote world on which the starter-pack fetch is rejected with
`boom`. -/
def envPackFail : Env :=
  ⟨fun _ => .error "HTTP error! status: 404",
   fun _ => .error "boom",
   fun _ => .ok ⟨⟨"Friends", "d"⟩, [⟨"did:1"⟩, ⟨"did:2"⟩]⟩,
   fun _ _ => .ok ⟨"at://me/app.bsky.graph.list/new"⟩,
   fun _ => .ok (),
   "r4nd0m",
   .ok ()⟩

/-- A mocked remote world on which the starter-pack fetch succeeds but the
list fetch is rejected with `boom` — the same cause message as
`envPackFail`, one stage later. -/
def envListFail : Env :=
  ⟨fun _ => .error "HTTP error! status: 404",
   fun a => .ok a,
   fun _ => .error "boom",
   fun _ _ => .ok ⟨"at://me/app.bsky.graph.list/new"⟩,
   fun _ => .ok (),
   "r4nd0m",
   .ok ()⟩

/-- A mocked remote world on which the list-create call is rejected. -/
def envCreateFail : Env :=
  ⟨fun _ => .error "HTTP error! status: 404",
   fun a => .ok a,
   fun _ => .ok ⟨⟨"Friends", "d"⟩, [⟨"did:1"⟩, ⟨"did:2"⟩]⟩,
   fun _ _ => .error "HTTP error! status: 400",
   fun _ => .ok (),
   "r4nd0m",
   .ok ()⟩

/-- A mocked remote world whose list fetch returns zero items. -/
def envEmpty : Env :=
  ⟨fun c => if c = "xyz789" then .ok "https://bsky.app/starter-pack/carol/k1"
            else .error "HTTP error! status: 404",
   fun a => if a = "at://bob/app.bsky.graph.list/xyz"
            then .ok "at://bob/app.bsky.graph.list/xyz"
            else .error "pack not found",
   fun _ => .ok ⟨⟨"Friends", "d"⟩, []⟩,
   fun _ _ => .ok ⟨"at://me/app.bsky.graph.list/new"⟩,
   fun _ => .ok (),
   "r4nd0m",
   .ok ()⟩

/-! ### Helper lemmas on the character-level split -/

theorem splitOnChar_ne_nil (c : Char) (l : List Char) : splitOnChar c l ≠ [] := by
  induction l with
  | nil => simp [splitOnChar]
  | cons x xs ih =>
    cases hs : splitOnChar c xs with
    | nil => exact absurd hs ih
    | cons y ys =>
      simp only [splitOnChar, hs]
      split <;> simp

theorem splitOnChar_of_not_mem (c : Char) (l : List Char) (h : c ∉ l) :
    splitOnChar c l = [l] := by
  induction l with
  | nil => rfl
  | cons x xs ih =>
    have hx : ¬ x = c := fun he => h (he ▸ List.mem_cons_self x xs)
    have := ih (fun hm => h (List.mem_cons_of_mem _ hm))
    simp [splitOnChar, this, hx]

theorem splitOnChar_append (c : Char) (l₁ l₂ : List Char) (h : c ∉ l₁) :
    splitOnChar c (l₁ ++ c :: l₂) = l₁ :: splitOnChar c l₂ := by
  induction l₁ with
  | nil =>
    show splitOnChar c (c :: l₂) = [] :: splitOnChar c l₂
    cases hs : splitOnChar c l₂ with
    | nil => exact absurd hs (splitOnChar_ne_nil c l₂)
    | cons y ys => simp [splitOnChar, hs]
  | cons x xs ih =>
    have hx : ¬ x = c := fun he => h (he ▸ List.mem_cons_self x xs)
    have ih2 := ih (fun hm => h (List.mem_cons_of_mem _ hm))
    show splitOnChar c (x :: (xs ++ c :: l₂)) = (x :: xs) :: splitOnChar c l₂
    simp [splitOnChar, ih2, hx]

theorem mk_data (s : String) : String.mk s.data = s := by cases s; rfl

theorem bne_empty_of_data_ne_nil (s : String) (hs : s.data ≠ []) :
    (s != "") = true := by
  rw [bne_iff_ne]
  intro he
  exact hs (by rw [he])

/-- A pathname of the shape `/{s₁}/{h}/{k}` with non-empty, slash-free
pieces splits into exactly those three non-empty segments. -/
theorem splitSegments_three (s₁ h k : String)
    (h₁ : '/' ∉ s₁.data) (h₁n : s₁.data ≠ [])
    (h₂ : '/' ∉ h.data) (h₂n : h.data ≠ [])
    (h₃ : '/' ∉ k.data) (h₃n : k.data ≠ []) :
    splitSegments ("/" ++ s₁ ++ "/" ++ h ++ "/" ++ k) = [s₁, h, k] := by
  have hdata : ("/" ++ s₁ ++ "/" ++ h ++ "/" ++ k).data
      = '/' :: (s₁.data ++ '/' :: (h.data ++ '/' :: k.data)) := by
    simp [String.data_append]
  unfold splitSegments
  rw [hdata]
  have e1 : splitOnChar '/' ('/' :: (s₁.data ++ '/' :: (h.data ++ '/' :: k.data)))
      = [] :: splitOnChar '/' (s₁.data ++ '/' :: (h.data ++ '/' :: k.data)) := by
    have := splitOnChar_append '/' [] (s₁.data ++ '/' :: (h.data ++ '/' :: k.data))
      (by simp)
    simpa using this
  rw [e1, splitOnChar_append _ _ _ h₁, splitOnChar_append _ _ _ h₂,
    splitOnChar_of_not_mem _ _ h₃]
  simp [List.filter, mk_data, bne_empty_of_data_ne_nil _ h₁n,
    bne_empty_of_data_ne_nil _ h₂n, bne_empty_of_data_ne_nil _ h₃n]

/-! ### Helper lemmas on the pipeline -/

theorem promiseAll_eq_ok_iff (l : List (Except String Unit)) :
    promiseAll l = .ok () ↔ ∀ x ∈ l, x = .ok () := by
  induction l with
  | nil => simp [promiseAll]
  | cons x xs ih =>
    cases x with
    | error e => simp [promiseAll]
    | ok a => simp [promiseAll, ih]

/-- The resolver step issues no call at all, or exactly the one
timeout-wrapped redirect call. -/
theorem getStarterPackUri_trace (env : Env) (u : Url) :
    (getStarterPackUri env u).2 = []
    ∨ ∃ code, (getStarterPackUri env u).2 = [⟨.redirect code, some 5000⟩] := by
  unfold getStarterPackUri
  split
  · cases hsc : getShortCode u with
    | error e => simp [hsc]
    | ok code =>
      simp only [hsc, fetchStarterPackRedirect]
      cases hr : env.redirectResp code with
      | error e => simp [hr]
      | ok ru =>
        simp only [hr]
        cases hau : getAtUri ru with
        | error e => simp [hau]
        | ok a => simp [hau]
  · left; rfl

theorem memberCreateCount_append (a b : List Issued) :
    memberCreateCount (a ++ b) = memberCreateCount a + memberCreateCount b :=
  List.countP_append _ _ _

theorem memberCreateCount_getStarterPackUri (env : Env) (u : Url) :
    memberCreateCount (getStarterPackUri env u).2 = 0 := by
  rcases getStarterPackUri_trace env u with h | ⟨code, h⟩ <;> rw [h] <;> rfl

theorem timeoutConsistent_append (a b : List Issued) :
    timeoutConsistent (a ++ b) = (timeoutConsistent a && timeoutConsistent b) :=
  List.all_append

theorem timeoutConsistent_getStarterPackUri (env : Env) (u : Url) :
    timeoutConsistent (getStarterPackUri env u).2 = true := by
  rcases getStarterPackUri_trace env u with h | ⟨code, h⟩ <;> rw [h] <;> rfl

/-- On a non-short-link pathname the resolver step is pure: it derives the
at-uri locally and issues no network call. -/
theorem getStarterPackUri_canonical (env : Env) (u : Url)
    (hcanon : jsStartsWith u.pathname "/starter-pack-short/" = false) :
    getStarterPackUri env u = (.ok (getAtUriOfUrl u), []) := by
  simp [getStarterPackUri, hcanon]

/-! ### Claims -/

/-- Claim C1, refuted at a concrete input: on `envB` the list-create call
succeeds and one of the two member-create calls fails, yet
`createListFromStarterPack` does not return successfully with a
`failedMembers` record — it raises `Failed to create list: listUri is not
defined` (the member rejection makes `Promise.all` reject, and the `catch`
block's logging line raises a `ReferenceError` on the undeclared `listUri`).
Both member calls are still issued. -/
theorem claim_C1_counterexample :
    createListFromStarterPack envB ⟨"bsky.app", "/starter-pack/bob/xyz"⟩
      = (.error "Failed to create list: listUri is not defined",
         [⟨.packFetch "at://bob/app.bsky.graph.list/xyz", none⟩,
          ⟨.listFetch "at://bob/app.bsky.graph.list/xyz", none⟩,
          ⟨.listCreate "Friends - r4nd0m" "d", none⟩,
          ⟨.memberCreate "did:1" "at://me/app.bsky.graph.list/new", none⟩,
          ⟨.memberCreate "did:2" "at://me/app.bsky.graph.list/new", none⟩]) := rfl

/-- Claim C1 as amended: the member phase always issues exactly one
member-create call per member (no cancellation, no retry, in source order),
but it succeeds if and only if every member call succeeds — a failing
member makes the phase (and hence the whole run) raise, and no
`failedMembers`/`succeededMembers` record exists in the result. -/
theorem claim_C1_amended (env : Env) (listUri : String) (users : List Member) :
    (addUsersToList env listUri users).2
        = users.map (fun m => ⟨.memberCreate m.subjectDid listUri, none⟩)
    ∧ (isOkB (addUsersToList env listUri users).1 = true
        ↔ ∀ m ∈ users, env.memberResp m.subjectDid = .ok ()) := by
  refine ⟨rfl, ?_⟩
  have key : (promiseAll (users.map (fun m => env.memberResp m.subjectDid)) = .ok ())
      ↔ ∀ m ∈ users, env.memberResp m.subjectDid = .ok () := by
    rw [promiseAll_eq_ok_iff]
    constructor
    · intro hall m hm
      exact hall _ (List.mem_map_of_mem _ hm)
    · intro hall x hx
      rcases List.mem_map.mp hx with ⟨m, hm, rfl⟩
      exact hall m hm
  unfold addUsersToList
  cases hp : promiseAll (users.map (fun m => env.memberResp m.subjectDid)) with
  | ok a =>
    cases a
    simp only [hp, isOkB]
    exact ⟨fun _ => key.mp hp, fun _ => trivial⟩
  | error e =>
    have hno : ¬ ∀ m ∈ users, env.memberResp m.subjectDid = .ok () := by
      intro hall
      rw [key.mpr hall] at hp
      exact Except.noConfusion hp
    simp only [hp, isOkB]
    simp [hno]

/-- Claim C2: when every list-create outcome is a failure, the whole
replication fails (no success value) and the trace contains zero
member-create calls. -/
theorem claim_C2_list_create_failure (env : Env) (u : Url)
    (hfail : ∀ n d, isOkB (env.createListResp n d) = false) :
    isOkB (createListFromStarterPack env u).1 = false
    ∧ memberCreateCount (createListFromStarterPack env u).2 = 0 := by
  unfold createListFromStarterPack
  rcases h1 : getStarterPackUri env u with ⟨r1, t1⟩
  have ht1 : memberCreateCount t1 = 0 := by
    have := memberCreateCount_getStarterPackUri env u
    rw [h1] at this
    exact this
  cases r1 with
  | error e => exact ⟨rfl, ht1⟩
  | ok atUri =>
    simp only [getStarterPack, getList, createBskyList]
    cases hp : env.packResp atUri with
    | error e =>
      simp only [hp]
      refine ⟨rfl, ?_⟩
      simp only [memberCreateCount_append, ht1]
      rfl
    | ok lu =>
      simp only [hp]
      cases hl : env.listResp lu with
      | error e =>
        simp only [hl]
        refine ⟨rfl, ?_⟩
        simp only [memberCreateCount_append, ht1]
        rfl
      | ok ld =>
        simp only [hl]
        cases hc : env.createListResp (ld.list.name ++ " - " ++ env.suffix)
            ld.list.description with
        | error e =>
          simp only [hc]
          refine ⟨rfl, ?_⟩
          simp only [memberCreateCount_append, ht1]
          rfl
        | ok cl =>
          have := hfail (ld.list.name ++ " - " ++ env.suffix) ld.list.description
          rw [hc] at this
          simp [isOkB] at this

/-- Witness for C2 at a concrete input: on `envCreateFail` (resolution
succeeds, list-create rejected) the run fails and no member-create call is
issued. -/
theorem claim_C2_witness :
    isOkB (createListFromStarterPack envCreateFail
        ⟨"bsky.app", "/starter-pack/bob/xyz"⟩).1 = false
    ∧ memberCreateCount (createListFromStarterPack envCreateFail
        ⟨"bsky.app", "/starter-pack/bob/xyz"⟩).2 = 0 :=
  claim_C2_list_create_failure envCreateFail ⟨"bsky.app", "/starter-pack/bob/xyz"⟩
    (fun _ _ => rfl)

/-- Claim C3, refuted at concrete inputs: a pack-fetch failure (stage
`packFetch`, on `envPackFail`) and a list-fetch failure (stage `listFetch`,
on `envListFail`) with the same cause message produce the very same error
value — the raised error carries no stage discriminator, so resolver
failures are not distinguishable by stage. -/
theorem claim_C3_counterexample :
    (createListFromStarterPack envPackFail ⟨"bsky.app", "/starter-pack/bob/xyz"⟩).1
        = .error "Failed to create list: boom"
    ∧ (createListFromStarterPack envListFail ⟨"bsky.app", "/starter-pack/bob/xyz"⟩).1
        = .error "Failed to create list: boom" := ⟨rfl, rfl⟩

/-- Claim C3 as amended: a resolver failure (here at the pack fetch)
propagates as the single wrapped error
`Failed to create list: {cause message}` — the underlying cause text is
preserved, but no stage tag of any kind is attached. -/
theorem claim_C3_amended (env : Env) (u : Url) (e : String)
    (hcanon : jsStartsWith u.pathname "/starter-pack-short/" = false)
    (hfail : env.packResp (getAtUriOfUrl u) = .error e) :
    createListFromStarterPack env u
      = (.error ("Failed to create list: " ++ e),
         [⟨.packFetch (getAtUriOfUrl u), none⟩]) := by
  simp [createListFromStarterPack, getStarterPackUri, hcanon, getStarterPack, hfail]

/-- Witness for the amended C3 at a concrete input. -/
theorem claim_C3_witness :
    createListFromStarterPack envPackFail ⟨"bsky.app", "/starter-pack/bob/xyz"⟩
      = (.error "Failed to create list: boom",
         [⟨.packFetch "at://bob/app.bsky.graph.list/xyz", none⟩]) :=
  claim_C3_amended envPackFail ⟨"bsky.app", "/starter-pack/bob/xyz"⟩ "boom"
    (by decide) rfl

/-- Claim C4, refuted at a concrete input: a successful replication run on
`envA` issues pack-fetch, list-fetch, list-create and member-create calls,
and not every issued call sits under a cancellation scope — only the
`HttpClient` redirect call does, and this run contains none. -/
theorem claim_C4_counterexample :
    ((createListFromStarterPack envA ⟨"bsky.app", "/starter-pack/bob/xyz"⟩).2.all
        (fun i => i.timeoutMs.isSome)) = false
    ∧ (createListFromStarterPack envA ⟨"bsky.app", "/starter-pack/bob/xyz"⟩).1
        = .ok ⟨"at://me/app.bsky.graph.list/new"⟩ := ⟨rfl, rfl⟩

/-- Claim C4 as amended: in every pipeline run, an issued call sits under
the 5000 ms abort scope exactly when it is the short-link redirect call
(the only call routed through `HttpClient.fetch`); the pack fetch, list
fetch, list create and member creates are issued with no cancellation
scope. -/
theorem claim_C4_amended (env : Env) (u : Url) :
    timeoutConsistent (createListFromStarterPack env u).2 = true := by
  unfold createListFromStarterPack
  rcases h1 : getStarterPackUri env u with ⟨r1, t1⟩
  have ht1 : timeoutConsistent t1 = true := by
    have := timeoutConsistent_getStarterPackUri env u
    rw [h1] at this
    exact this
  have hmem : ∀ (users : List Member) (luri : String),
      timeoutConsistent (users.map
        (fun m => (⟨.memberCreate m.subjectDid luri, none⟩ : Issued))) = true := by
    intro users luri
    induction users with
    | nil => rfl
    | cons m ms ih =>
      simp [timeoutConsistent] at ih ⊢
      exact ⟨rfl, ih⟩
  cases r1 with
  | error e => exact ht1
  | ok atUri =>
    simp only [getStarterPack, getList, createBskyList, addUsersToList]
    cases hp : env.packResp atUri with
    | error e =>
      simp only [hp, timeoutConsistent_append, ht1]
      rfl
    | ok lu =>
      simp only [hp]
      cases hl : env.listResp lu with
      | error e =>
        simp only [hl, timeoutConsistent_append, ht1]
        rfl
      | ok ld =>
        simp only [hl]
        cases hc : env.createListResp (ld.list.name ++ " - " ++ env.suffix)
            ld.list.description with
        | error e =>
          simp only [hc, timeoutConsistent_append, ht1]
          rfl
        | ok cl =>
          simp only [hc]
          cases hpa : promiseAll (ld.items.map (fun m => env.memberResp m.subjectDid)) with
          | error e =>
            simp only [hpa, timeoutConsistent_append, ht1, hmem]
            rfl
          | ok a =>
            simp only [hpa, timeoutConsistent_append, ht1, hmem]
            rfl

/-- Claim C5: a parseable URL whose host is not `bsky.app`, or whose path
starts with none of the three recognized prefixes, is classified `false`
(not applicable, no exception), and the create-list handler returns its
early response having issued zero network calls. -/
theorem claim_C5_not_applicable (env : Env) (s : String) (u : Url)
    (hparse : parseUrl s = some u)
    (hna : u.hostname ≠ "bsky.app"
      ∨ (jsStartsWith u.pathname "/starter-pack/" = false
         ∧ jsStartsWith u.pathname "/starter-pack-short/" = false
         ∧ jsStartsWith u.pathname "/start/" = false)) :
    isStarterPackUrlOfUrl u = false
    ∧ handleCreateList env s = (.ok ⟨false, none, some "Invalid URL"⟩, []) := by
  have hfalse : isStarterPackUrlOfUrl u = false := by
    unfold isStarterPackUrlOfUrl
    rcases hna with h | ⟨h1, h2, h3⟩
    · have : (u.hostname == "bsky.app") = false := beq_eq_false_iff_ne.mpr h
      simp [this]
    · simp [h1, h2, h3]
  refine ⟨hfalse, ?_⟩
  simp [handleCreateList, isStarterPackUrl, hparse, hfalse]

/-- Witness for C5 at a concrete input: host `example.com` is classified
not-applicable and triggers no network call. -/
theorem claim_C5_witness :
    isStarterPackUrlOfUrl ⟨"example.com", "/starter-pack/a/b"⟩ = false
    ∧ handleCreateList envA "https://example.com/starter-pack/a/b"
        = (.ok ⟨false, none, some "Invalid URL"⟩, []) :=
  claim_C5_not_applicable envA "https://example.com/starter-pack/a/b"
    ⟨"example.com", "/starter-pack/a/b"⟩ (by decide) (Or.inl (by decide))

/-- Claim C6: for canonical pathnames `/starter-pack/{handle}/{key}` and
`/start/{handle}/{key}` (handle and key non-empty and slash-free, any
host), the derived identifier is exactly
`at://{handle}/app.bsky.graph.list/{key}`. -/
theorem claim_C6_canonical_derivation (host h k : String)
    (hh : '/' ∉ h.data) (hhn : h.data ≠ [])
    (hk : '/' ∉ k.data) (hkn : k.data ≠ []) :
    getAtUriOfUrl ⟨host, "/starter-pack/" ++ h ++ "/" ++ k⟩
        = "at://" ++ h ++ "/app.bsky.graph.list/" ++ k
    ∧ getAtUriOfUrl ⟨host, "/start/" ++ h ++ "/" ++ k⟩
        = "at://" ++ h ++ "/app.bsky.graph.list/" ++ k := by
  constructor
  · have e : ("/starter-pack/" : String) = "/" ++ "starter-pack" ++ "/" := by decide
    have hs := splitSegments_three "starter-pack" h k (by decide) (by decide) hh hhn hk hkn
    rw [← e] at hs
    show "at://" ++ segGet (splitSegments ("/starter-pack/" ++ h ++ "/" ++ k)) 1
        ++ "/app.bsky.graph.list/"
        ++ segGet (splitSegments ("/starter-pack/" ++ h ++ "/" ++ k)) 2
      = "at://" ++ h ++ "/app.bsky.graph.list/" ++ k
    rw [hs]
    rfl
  · have e : ("/start/" : String) = "/" ++ "start" ++ "/" := by decide
    have hs := splitSegments_three "start" h k (by decide) (by decide) hh hhn hk hkn
    rw [← e] at hs
    show "at://" ++ segGet (splitSegments ("/start/" ++ h ++ "/" ++ k)) 1
        ++ "/app.bsky.graph.list/"
        ++ segGet (splitSegments ("/start/" ++ h ++ "/" ++ k)) 2
      = "at://" ++ h ++ "/app.bsky.graph.list/" ++ k
    rw [hs]
    rfl

/-- Witness for C6 at the concrete input from the claim:
`/starter-pack/alice/abc123` derives
`at://alice/app.bsky.graph.list/abc123`. -/
theorem claim_C6_witness :
    getAtUriOfUrl ⟨"bsky.app", "/starter-pack/alice/abc123"⟩
      = "at://alice/app.bsky.graph.list/abc123" :=
  (claim_C6_canonical_derivation "bsky.app" "alice" "abc123" (by decide) (by decide)
    (by decide) (by decide)).1

/-- Claim C7, refuted at a concrete input: pathname `/starter-pack/`
matches a recognized prefix and has fewer than 2 non-empty segments, yet
the resolver signals no malformed-URL error — it silently derives
`at://undefined/app.bsky.graph.list/undefined` (no network call, no
failure). -/
theorem claim_C7_counterexample :
    getStarterPackUri envA ⟨"bsky.app", "/starter-pack/"⟩
      = (.ok "at://undefined/app.bsky.graph.list/undefined", []) := rfl

/-- Claim C7 as amended: with fewer than 2 non-empty path segments, only
the short-link shape raises the distinct `Invalid URL path structure`
error; the canonical shapes silently derive the identifier
`at://undefined/app.bsky.graph.list/undefined` instead of signalling. -/
theorem claim_C7_amended (env : Env) (u : Url)
    (hlen : (splitSegments u.pathname).length < 2) :
    (jsStartsWith u.pathname "/starter-pack-short/" = true →
      getStarterPackUri env u = (.error "Invalid URL path structure", []))
    ∧ (jsStartsWith u.pathname "/starter-pack-short/" = false →
      getStarterPackUri env u
        = (.ok "at://undefined/app.bsky.graph.list/undefined", [])) := by
  constructor
  · intro hshort
    have hne : ¬ u.pathname = "" := by
      intro he
      rw [he] at hshort
      exact absurd hshort (by decide)
    simp [getStarterPackUri, hshort, getShortCode, hne, hlen]
  · intro hshort
    have h1 : segGet (splitSegments u.pathname) 1 = "undefined" := by
      unfold segGet
      rw [List.get?_eq_none.mpr (by omega)]
      rfl
    have h2 : segGet (splitSegments u.pathname) 2 = "undefined" := by
      unfold segGet
      rw [List.get?_eq_none.mpr (by omega)]
      rfl
    have hat : getAtUriOfUrl u = "at://undefined/app.bsky.graph.list/undefined" := by
      show "at://" ++ segGet (splitSegments u.pathname) 1 ++ "/app.bsky.graph.list/"
          ++ segGet (splitSegments u.pathname) 2 = _
      rw [h1, h2]
      rfl
    rw [getStarterPackUri_canonical env u hshort, hat]

/-- Witness for the amended C7 at concrete inputs: the short shape errors,
the canonical short-path shape silently derives. -/
theorem claim_C7_witness :
    getStarterPackUri envA ⟨"bsky.app", "/starter-pack-short/"⟩
        = (.error "Invalid URL path structure", [])
    ∧ getStarterPackUri envA ⟨"bsky.app", "/start/"⟩
        = (.ok "at://undefined/app.bsky.graph.list/undefined", []) :=
  ⟨(claim_C7_amended envA ⟨"bsky.app", "/starter-pack-short/"⟩ (by decide)).1
      (by decide),
   (claim_C7_amended envA ⟨"bsky.app", "/start/"⟩ (by decide)).2 (by decide)⟩

/-- Claim C8: on a short-link pathname whose short code resolves, the
resolver issues exactly one redirect-resolution call (the trace is that
single call) and derives the identifier from the URL the call returned. -/
theorem claim_C8_single_redirect (env : Env) (u ru : Url) (rus : String)
    (hshort : jsStartsWith u.pathname "/starter-pack-short/" = true)
    (hlen : 2 ≤ (splitSegments u.pathname).length)
    (hredir : env.redirectResp (segGet (splitSegments u.pathname) 1) = .ok rus)
    (hru : parseUrl rus = some ru) :
    getStarterPackUri env u
      = (.ok (getAtUriOfUrl ru),
         [⟨.redirect (segGet (splitSegments u.pathname) 1), some 5000⟩]) := by
  have hne : ¬ u.pathname = "" := by
    intro he
    rw [he] at hshort
    exact absurd hshort (by decide)
  have hnl : ¬ (splitSegments u.pathname).length < 2 := Nat.not_lt.mpr hlen
  simp [getStarterPackUri, hshort, getShortCode, hne, hnl, fetchStarterPackRedirect,
    hredir, getAtUri, hru]

/-- Witness for C8 at the concrete input from the claim: code `xyz789`
resolves to the carol/k1 page and derives
`at://carol/app.bsky.graph.list/k1` with exactly one redirect call. -/
theorem claim_C8_witness :
    getStarterPackUri envA ⟨"bsky.app", "/starter-pack-short/xyz789"⟩
      = (.ok "at://carol/app.bsky.graph.list/k1",
         [⟨.redirect "xyz789", some 5000⟩]) :=
  claim_C8_single_redirect envA ⟨"bsky.app", "/starter-pack-short/xyz789"⟩
    ⟨"bsky.app", "/starter-pack/carol/k1"⟩ "https://bsky.app/starter-pack/carol/k1"
    (by decide) (by decide) rfl (by decide)

/-- Claim C9: when the list fetch returns zero items, the run still issues
the list-create call, issues zero member-create calls, and succeeds with
the created list; the member phase records no outcome at all (both the
issued member calls and any member failures are the empty collection). -/
theorem claim_C9_empty_members (env : Env) (u : Url) (luri name desc : String)
    (newl : CreatedList)
    (hcanon : jsStartsWith u.pathname "/starter-pack-short/" = false)
    (hpack : env.packResp (getAtUriOfUrl u) = .ok luri)
    (hlist : env.listResp luri = .ok ⟨⟨name, desc⟩, []⟩)
    (hcreate : env.createListResp (name ++ " - " ++ env.suffix) desc = .ok newl) :
    createListFromStarterPack env u
      = (.ok newl,
         [⟨.packFetch (getAtUriOfUrl u), none⟩,
          ⟨.listFetch luri, none⟩,
          ⟨.listCreate (name ++ " - " ++ env.suffix) desc, none⟩])
    ∧ memberCreateCount (createListFromStarterPack env u).2 = 0 := by
  have hmain : createListFromStarterPack env u
      = (.ok newl,
         [⟨.packFetch (getAtUriOfUrl u), none⟩,
          ⟨.listFetch luri, none⟩,
          ⟨.listCreate (name ++ " - " ++ env.suffix) desc, none⟩]) := by
    simp [createListFromStarterPack, getStarterPackUri, hcanon, getStarterPack, hpack,
      getList, hlist, createBskyList, hcreate, addUsersToList, promiseAll]
  refine ⟨hmain, ?_⟩
  rw [hmain]
  rfl

/-- Witness for C9 at a concrete input: `envEmpty` returns zero items and
the run succeeds with exactly the three non-member calls. -/
theorem claim_C9_witness :
    createListFromStarterPack envEmpty ⟨"bsky.app", "/starter-pack/bob/xyz"⟩
      = (.ok ⟨"at://me/app.bsky.graph.list/new"⟩,
         [⟨.packFetch "at://bob/app.bsky.graph.list/xyz", none⟩,
          ⟨.listFetch "at://bob/app.bsky.graph.list/xyz", none⟩,
          ⟨.listCreate "Friends - r4nd0m" "d", none⟩])
    ∧ memberCreateCount (createListFromStarterPack envEmpty
        ⟨"bsky.app", "/starter-pack/bob/xyz"⟩).2 = 0 :=
  claim_C9_empty_members envEmpty ⟨"bsky.app", "/starter-pack/bob/xyz"⟩
    "at://bob/app.bsky.graph.list/xyz" "Friends" "d"
    ⟨"at://me/app.bsky.graph.list/new"⟩ (by decide) rfl rfl rfl

/-- Claim C10, refuted at a concrete input: when the sender's tab URL is
missing (`new URL(undefined)` receives the string `undefined`) the URL
constructor inside `isStarterPackUrl` throws outside the handler's
`try`/`catch`, so `handleCreateList` rejects instead of resolving with a
`{success, data, error}` response. -/
theorem claim_C10_counterexample :
    handleCreateList envA "undefined" = (.error "Invalid URL", []) := rfl

/-- Claim C10 as amended: for every sender URL the URL constructor can
parse, `handleCreateList` resolves with a `{success, data, error}` response
in which failure means `success = false`, `data = null` and a non-null
error message, and success means `success = true`, the created list in
`data` and `error = null`. -/
theorem claim_C10_amended (env : Env) (s : String) (u : Url)
    (hparse : parseUrl s = some u) :
    ∃ r, (handleCreateList env s).1 = .ok r
      ∧ ((r.success = true ∧ r.data.isSome = true ∧ r.error = none)
        ∨ (r.success = false ∧ r.data = none ∧ r.error.isSome = true)) := by
  unfold handleCreateList isStarterPackUrl
  rw [hparse]
  cases hb : isStarterPackUrlOfUrl u with
  | false => exact ⟨⟨false, none, some "Invalid URL"⟩, by simp [hb], Or.inr ⟨rfl, rfl, rfl⟩⟩
  | true =>
    simp only [hb]
    cases ha : env.authResp with
    | error e => exact ⟨⟨false, none, some e⟩, by simp [ha], Or.inr ⟨rfl, rfl, rfl⟩⟩
    | ok a =>
      simp only [ha]
      rcases hc : createListFromStarterPack env u with ⟨r1, tr⟩
      cases r1 with
      | error e => exact ⟨⟨false, none, some e⟩, rfl, Or.inr ⟨rfl, rfl, rfl⟩⟩
      | ok l => exact ⟨⟨true, some l, none⟩, rfl, Or.inl ⟨rfl, rfl, rfl⟩⟩

/-- Witness for the amended C10 at a concrete parseable URL. -/
theorem claim_C10_witness :
    ∃ r, (handleCreateList envA "https://bsky.app/starter-pack/bob/xyz").1 = .ok r
      ∧ ((r.success = true ∧ r.data.isSome = true ∧ r.error = none)
        ∨ (r.success = false ∧ r.data = none ∧ r.error.isSome = true)) :=
  claim_C10_amended envA "https://bsky.app/starter-pack/bob/xyz"
    ⟨"bsky.app", "/starter-pack/bob/xyz"⟩ (by decide)

end Bsky
